import Mathlib

/-!
Shallow embedding of the lead-generation pipeline in `main.py`
(Google Places + sentiment lead scout).

Numbers: Python floats are modelled as rationals; Python ints as `Int`/`Nat`.
External collaborators (HTTP requests, HTML parsing, the VADER sentiment
model) are opaque function parameters.  Fallible calls return `Except Err`.
-/

/-- Failure of an external call (`requests` exception, non-2xx status, ...). -/
inductive Err where
  | network
  | httpStatus (code : ℕ)
deriving DecidableEq, Repr

/-- One business summary from a Places text-search page (`biz` in the loop of
`scout_leads`): the fields that `scout_leads` reads, each `Option` because
`biz.get(...)` may find the key missing. -/
structure Candidate where
  name : Option String
  place_id : Option String
  rating : Option ℚ
  user_ratings_total : Option ℤ
deriving DecidableEq, Repr

/-- One review object inside a details response (only the `text` field is read). -/
structure Review where
  text : Option String
deriving DecidableEq, Repr

/-- A Places details response (`google_place_details` result): the fields
`scout_leads` reads. -/
structure Details where
  website : Option String
  reviews : List Review
deriving DecidableEq, Repr

/-- The empty dict `{}` substituted when the detail fetch raises:
`details.get("website")` is `None` and `details.get("reviews", [])` is `[]`. -/
def emptyDetails : Details := ⟨none, []⟩

/-- Decoded JSON body of a Places text-search response: `data.get("results", [])`
and `data.get("next_page_token")`. -/
structure PlacesData where
  results : List Candidate
  next_page_token : Option String
deriving DecidableEq, Repr

/-- Output of the opaque HTML parsing collaborator (BeautifulSoup part of
`extract_website_info`): the signals read out of a successfully fetched page. -/
structure HtmlSignals where
  has_meta_desc : Bool
  contact_email : Option String
  has_ldjson : Bool
deriving DecidableEq, Repr

/-- The dict returned by `extract_website_info`. -/
structure WebsiteInfo where
  reachable : Bool
  has_meta_desc : Bool
  contact_email : Option String
  has_ldjson : Bool
deriving DecidableEq, Repr

/-- The `features` dict handed to `compute_ai_lead_score`.  A field is `none`
exactly when the Python value is `None`. -/
structure FeatureBundle where
  has_website : Bool
  rating : Option ℚ
  review_count : Option ℤ
  avg_review_sentiment : Option ℚ
  has_meta_desc : Option Bool
deriving DecidableEq, Repr

/-- One output row appended to `rows` in `scout_leads`. -/
structure Row where
  name : Option String
  place_id : Option String
  rating : Option ℚ
  review_count : ℤ
  website : String
  avg_sentiment : Option ℚ
  ai_lead_score : ℤ
  reasons : String
deriving DecidableEq, Repr

/-- Python truthiness of an optional string: `None` and the empty string are
falsy, every other string is truthy. -/
def truthyStr : Option String → Bool
  | none => false
  | some s => s ≠ ""

/-- Models `features.get("rating") or 5.0`: `None` and the number `0` are falsy
in Python, so both fall back to `5.0`; any nonzero rating is kept. -/
def pyOrRating : Option ℚ → ℚ
  | none => 5
  | some r => if r = 0 then 5 else r

/-- Models `int(round(x))` for a Python float: round half to even
(Python 3 `round`), as a function on the rational model. -/
def pyRound (q : ℚ) : ℤ :=
  if q - ⌊q⌋ < 1/2 then ⌊q⌋
  else if 1/2 < q - ⌊q⌋ then ⌊q⌋ + 1
  else if ⌊q⌋ % 2 = 0 then ⌊q⌋ else ⌊q⌋ + 1

/-- Models the f-string rendering of the (floating point) rating inside the
reason `"Low rating: {rating}"`.  Integral values print as `n.0`; the
non-integral case is rendered as a plain rational (a simplification of Python
float repr; no claim below depends on that case). -/
def pyFloatStr (q : ℚ) : String :=
  if q.den = 1 then toString q.num ++ ".0" else toString q

/-- Weight `w["missing_website"]`. -/
def w_missing_website : ℚ := 25/100
/-- Weight `w["rating"]`. -/
def w_rating : ℚ := 20/100
/-- Weight `w["review_count"]`. -/
def w_review_count : ℚ := 15/100
/-- Weight `w["sentiment"]`. -/
def w_sentiment : ℚ := 25/100
/-- Weight `w["missing_meta"]`. -/
def w_missing_meta : ℚ := 15/100

/-- `f_has_website = 1 if features.get("has_website") else 0`. -/
def f_has_websiteOf (b : FeatureBundle) : ℚ := if b.has_website then 1 else 0

/-- `rating = features.get("rating") or 5.0`. -/
def ratingOf (b : FeatureBundle) : ℚ := pyOrRating b.rating

/-- `f_rating = 1 - (rating / 5.0)`. -/
def f_ratingOf (b : FeatureBundle) : ℚ := 1 - ratingOf b / 5

/-- `review_count = features.get("review_count") or 0` (for integers, falsy
means `None` or `0`, both of which yield `0`). -/
def review_countOf (b : FeatureBundle) : ℤ := b.review_count.getD 0

/-- `f_review_count = 1 - min(review_count, 200) / 200`. -/
def f_review_countOf (b : FeatureBundle) : ℚ :=
  1 - ((min (review_countOf b) 200 : ℤ) : ℚ) / 200

/-- `f_sent = 1 - ((compound + 1) / 2) if compound is not None else 0`. -/
def f_sentOf (b : FeatureBundle) : ℚ :=
  match b.avg_review_sentiment with
  | some c => 1 - (c + 1) / 2
  | none => 0

/-- `f_missing_meta = 1 if (features.get("has_meta_desc") is False) else 0`. -/
def f_missing_metaOf (b : FeatureBundle) : ℚ :=
  if b.has_meta_desc = some false then 1 else 0

/-- `score_raw`: the weighted sum of the five sub-signals. -/
def scoreRaw (b : FeatureBundle) : ℚ :=
  w_missing_website * (1 - f_has_websiteOf b) +
  w_rating * f_ratingOf b +
  w_review_count * f_review_countOf b +
  w_sentiment * f_sentOf b +
  w_missing_meta * f_missing_metaOf b

/-- `compute_ai_lead_score(features)`: the clamped score
`max(0, min(100, int(round(score_raw * 100))))` together with the reasons
list, built in the fixed source order with the source conditions
(`not f_has_website`, `f_rating > 0.3`, `review_count < 20`,
`f_sent > 0.25`, truthiness of `f_missing_meta`). -/
def compute_ai_lead_score (b : FeatureBundle) : ℤ × List String :=
  let score := pyRound (scoreRaw b * 100)
  let reasons :=
    (if f_has_websiteOf b = 0 then ["No website found"] else []) ++
    (if 3/10 < f_ratingOf b then ["Low rating: " ++ pyFloatStr (ratingOf b)] else []) ++
    (if review_countOf b < 20 then ["Low review count: " ++ toString (review_countOf b)] else []) ++
    (if 1/4 < f_sentOf b then ["Negative review sentiment"] else []) ++
    (if f_missing_metaOf b ≠ 0 then ["Missing meta description"] else [])
  (max 0 (min 100 score), reasons)

/-- `extract_website_info(url)`: `safe_get` (the web-fetch collaborator,
returning `none` on any exception or non-2xx status) followed by the opaque
HTML parsing collaborator on success; on failure the all-false dict. -/
def extract_website_info (webFetch : String → Option String)
    (parseHtml : String → HtmlSignals) (url : String) : WebsiteInfo :=
  match webFetch url with
  | none => ⟨false, false, none, false⟩
  | some text =>
    let p := parseHtml text
    ⟨true, p.has_meta_desc, p.contact_email, p.has_ldjson⟩

/-- The sentiment aggregation in the `scout_leads` loop: each review text
(`rv.get("text") or ""`, truncated to its first 1000 characters) is scored by
the opaque polarity model, and
`avg_compound = sum(compound_scores)/len(compound_scores) if compound_scores else None`. -/
def avgSentiment (polarity : String → ℚ) (reviews : List Review) : Option ℚ :=
  let compound_scores := reviews.map fun rv => polarity (((rv.text).getD "").take 1000)
  if compound_scores.isEmpty then none
  else some (compound_scores.sum / (compound_scores.length : ℚ))

/-- The `params` dict built by `google_places_search`: the `limit` argument is
received but never placed in the request. `apiKey` models the module-level
`GOOGLE_API_KEY`. -/
def placesSearchParams (apiKey query location : String) (_limit : ℕ)
    (pagetoken : Option String) : List (String × String) :=
  [("query", query ++ " in " ++ location), ("key", apiKey)] ++
  (match pagetoken with
   | some t => [("pagetoken", t)]
   | none => [])

/-- `google_places_search(query, location, limit, pagetoken)`: issue the HTTP
request (the collaborator `h` covers `requests.get`, `raise_for_status` and
`.json()`), then read `data.get("results", [])` and
`data.get("next_page_token")`. -/
def google_places_search (h : List (String × String) → Except Err PlacesData)
    (apiKey query location : String) (limit : ℕ) (pagetoken : Option String) :
    Except Err (List Candidate × Option String) :=
  match h (placesSearchParams apiKey query location limit pagetoken) with
  | .error e => .error e
  | .ok data => .ok (data.results, data.next_page_token)

/-- The pagination loop of `scout_leads` (lines 116-125): while fewer than
`target_n` candidates are accumulated, call the search with
`limit=min(20, target_n - len(all_biz))`, stop on an empty batch or a missing
continuation token, and propagate any search failure.  The `fuel` argument
makes the recursion structural; `scout_leads` starts it at `target_n`, which
is an upper bound on the number of loop iterations because every iteration
that continues has appended a nonempty batch (so the zero-fuel branch is
never reached from that entry point). -/
def fetchLoop (h : List (String × String) → Except Err PlacesData)
    (apiKey category location : String) (target_n : ℕ) :
    ℕ → List Candidate → Option String → Except Err (List Candidate)
  | 0, all_biz, _ => .ok all_biz
  | fuel + 1, all_biz, next_page =>
    if target_n ≤ all_biz.length then .ok all_biz
    else
      match google_places_search h apiKey category location
          (min 20 (target_n - all_biz.length)) next_page with
      | .error e => .error e
      | .ok (batch, next) =>
        if batch.isEmpty then .ok all_biz
        else
          match next with
          | none => .ok (all_biz ++ batch)
          | some t => fetchLoop h apiKey category location target_n fuel
              (all_biz ++ batch) (some t)

/-- The detail fetch with its `try/except` (lines 137-140): any failure of the
details collaborator is replaced by the empty dict. -/
def fetchedDetails (detailsFetch : Option String → Except Err Details)
    (biz : Candidate) : Details :=
  match detailsFetch biz.place_id with
  | .error _ => emptyDetails
  | .ok d => d

/-- The `features` dict assembled for one candidate (lines 142-159):
`has_website = bool(website)`, rating and review count from the SUMMARY `biz`,
sentiment from the detail reviews, `has_meta_desc` from the website check
(which is skipped, yielding the all-false dict, when `website` is falsy). -/
def featuresOf (webFetch : String → Option String)
    (parseHtml : String → HtmlSignals) (polarity : String → ℚ)
    (biz : Candidate) (details : Details) : FeatureBundle :=
  let website := details.website
  let website_info :=
    if truthyStr website then
      extract_website_info webFetch parseHtml (website.getD "")
    else (⟨false, false, none, false⟩ : WebsiteInfo)
  { has_website := truthyStr website
    rating := biz.rating
    review_count := some (biz.user_ratings_total.getD 0)
    avg_review_sentiment := avgSentiment polarity details.reviews
    has_meta_desc := some website_info.has_meta_desc }

/-- The feature bundle a candidate reaches the scorer with, detail fetch
included. -/
def featuresOfCandidate (detailsFetch : Option String → Except Err Details)
    (webFetch : String → Option String) (parseHtml : String → HtmlSignals)
    (polarity : String → ℚ) (biz : Candidate) : FeatureBundle :=
  featuresOf webFetch parseHtml polarity biz (fetchedDetails detailsFetch biz)

/-- The output row appended for one candidate (lines 162-171). -/
def rowOf (webFetch : String → Option String) (parseHtml : String → HtmlSignals)
    (polarity : String → ℚ) (biz : Candidate) (details : Details) : Row :=
  let scored := compute_ai_lead_score (featuresOf webFetch parseHtml polarity biz details)
  { name := biz.name
    place_id := biz.place_id
    rating := biz.rating
    review_count := biz.user_ratings_total.getD 0
    website := details.website.getD ""
    avg_sentiment := avgSentiment polarity details.reviews
    ai_lead_score := scored.1
    reasons := String.intercalate "; " scored.2 }

/-- Processing of one accumulated candidate: detail fetch (failures replaced
by the empty dict) followed by row assembly. -/
def processCandidate (detailsFetch : Option String → Except Err Details)
    (webFetch : String → Option String) (parseHtml : String → HtmlSignals)
    (polarity : String → ℚ) (biz : Candidate) : Row :=
  rowOf webFetch parseHtml polarity biz (fetchedDetails detailsFetch biz)

/-- Insert a row into a list sorted by descending score, after every row of
strictly greater or equal score. -/
def insertDesc (r : Row) : List Row → List Row
  | [] => [r]
  | x :: xs => if x.ai_lead_score < r.ai_lead_score then r :: x :: xs
               else x :: insertDesc r xs

/-- Sorting of the result table by descending `ai_lead_score`
(`df.sort_values("ai_lead_score", ascending=False)`).  The model sorts with a
stable insertion sort; note that the source delegates to the pandas default
quicksort, whose ordering of equal keys is not specified by the library. -/
def sortByScoreDesc (rows : List Row) : List Row :=
  rows.foldr insertDesc []

/-- `scout_leads(category, location, target_n)`: paginate, process each
accumulated candidate, and sort the rows by descending score.  A failure of
the paged search propagates (there is no `try/except` around it), aborting
the run with no rows. -/
def scout_leads (h : List (String × String) → Except Err PlacesData)
    (detailsFetch : Option String → Except Err Details)
    (webFetch : String → Option String) (parseHtml : String → HtmlSignals)
    (polarity : String → ℚ) (apiKey category location : String)
    (target_n : ℕ) : Except Err (List Row) :=
  match fetchLoop h apiKey category location target_n target_n [] none with
  | .error e => .error e
  | .ok all_biz =>
    .ok (sortByScoreDesc (all_biz.map
      (processCandidate detailsFetch webFetch parseHtml polarity)))

/-- A rating field is valid when, if known, it lies in the documented range
0.0 to 5.0. -/
def ValidRating : Option ℚ → Prop
  | none => True
  | some r => 0 ≤ r ∧ r ≤ 5

/-- A review-count field is valid when, if known, it is non-negative. -/
def ValidReviewCount : Option ℤ → Prop
  | none => True
  | some n => 0 ≤ n

/-! ### Concrete collaborators used to instantiate run-level statements -/

/-- A candidate with full summary data. -/
def bizOne : Candidate := ⟨some "Gym One", some "p1", some 4, some 10⟩

/-- A candidate whose summary lacks rating and review count. -/
def bizTwo : Candidate := ⟨some "Gym Two", some "p2", none, none⟩

/-- A search HTTP collaborator that serves one page of one candidate with a
continuation token, then fails on the request that carries that token. -/
def searchFailsOnSecondPage : List (String × String) → Except Err PlacesData :=
  fun params =>
    if params.contains ("pagetoken", "tok2") then .error .network
    else .ok ⟨[bizOne], some "tok2"⟩

/-- A search HTTP collaborator that serves a single page of two candidates
and reports no further page. -/
def searchOnePageOfTwo : List (String × String) → Except Err PlacesData :=
  fun _ => .ok ⟨[bizOne, bizTwo], none⟩

/-- A details collaborator that always fails. -/
def detailsAlwaysFails : Option String → Except Err Details :=
  fun _ => .error .network

/-- A web-fetch collaborator for which every URL is unreachable. -/
def webFetchNothing : String → Option String := fun _ => none

/-- A trivial HTML parsing collaborator. -/
def parseHtmlTrivial : String → HtmlSignals := fun _ => ⟨false, none, false⟩

/-- A polarity model that scores every snippet as neutral. -/
def polarityZero : String → ℚ := fun _ => 0

/-! ### Properties of the rounding function -/

theorem floor_le_pyRound (q : ℚ) : ⌊q⌋ ≤ pyRound q := by
  unfold pyRound; split_ifs <;> omega

theorem pyRound_le_floor_add_one (q : ℚ) : pyRound q ≤ ⌊q⌋ + 1 := by
  unfold pyRound; split_ifs <;> omega

theorem le_pyRound (q : ℚ) : q - 1/2 ≤ (pyRound q : ℚ) := by
  have hlt := Int.lt_floor_add_one q
  unfold pyRound
  split_ifs <;> push_cast <;> linarith

theorem pyRound_le (q : ℚ) : (pyRound q : ℚ) ≤ q + 1/2 := by
  have hle := Int.floor_le q
  unfold pyRound
  split_ifs <;> push_cast <;> linarith

theorem pyRound_mono {a b : ℚ} (h : a ≤ b) : pyRound a ≤ pyRound b := by
  rcases lt_or_le ⌊a⌋ ⌊b⌋ with hf | hf
  · calc pyRound a ≤ ⌊a⌋ + 1 := pyRound_le_floor_add_one a
      _ ≤ ⌊b⌋ := by omega
      _ ≤ pyRound b := floor_le_pyRound b
  · have hf2 : ⌊a⌋ = ⌊b⌋ := le_antisymm (Int.floor_le_floor h) hf
    have hab : a - ((⌊b⌋ : ℤ) : ℚ) ≤ b - ((⌊b⌋ : ℤ) : ℚ) := by linarith
    unfold pyRound
    rw [hf2]
    split_ifs <;> first | omega | linarith

/-- The final clamped score is monotone in the raw weighted sum. -/
theorem score_le_score_of_scoreRaw_le {b₁ b₂ : FeatureBundle}
    (h : scoreRaw b₁ ≤ scoreRaw b₂) :
    (compute_ai_lead_score b₁).1 ≤ (compute_ai_lead_score b₂).1 := by
  have hr : pyRound (scoreRaw b₁ * 100) ≤ pyRound (scoreRaw b₂ * 100) :=
    pyRound_mono (by linarith)
  exact max_le_max le_rfl (min_le_min le_rfl hr)

/-- Two reason strings that share the literal stem `Low r` are still distinct
whatever the interpolated review count is: the literal parts already have
different lengths. -/
theorem low_rating_str_ne_low_review (s : String) :
    "Low rating: 5.0" ≠ "Low review count: " ++ s := by
  intro h
  have hlen := congrArg String.length h
  rw [String.length_append] at hlen
  have h1 : "Low rating: 5.0".length = 15 := rfl
  have h2 : "Low review count: ".length = 18 := rfl
  omega

/-- Claim C1: for every feature bundle, the score returned by
`compute_ai_lead_score` is an integer in the interval [0, 100]. -/
theorem score_in_range (b : FeatureBundle) :
    0 ≤ (compute_ai_lead_score b).1 ∧ (compute_ai_lead_score b).1 ≤ 100 :=
  ⟨le_max_left 0 _, max_le (by norm_num) (min_le_left 100 _)⟩

/-- Claim C4, counterexample: on the bundle with no website, unknown rating,
zero reviews, unknown sentiment and unknown meta description, the score is
not 60 (the unknown rating defaults to 5.0, so the rating weight 0.20
contributes nothing and the score is 40). -/
theorem default_bundle_score_ne_sixty :
    (compute_ai_lead_score ⟨false, none, some 0, none, none⟩).1 ≠ 60 := by
  simp [compute_ai_lead_score, scoreRaw, f_has_websiteOf, ratingOf, f_ratingOf,
    review_countOf, f_review_countOf, f_sentOf, f_missing_metaOf, pyOrRating, pyRound,
    w_missing_website, w_rating, w_review_count, w_sentiment, w_missing_meta]
  norm_num [Int.fract]

/-- Claim C4, amended: that bundle scores 40 = round((0.25 + 0.15) x 100),
with reasons exactly ["No website found", "Low review count: 0"] in that
order. -/
theorem default_bundle_score_forty :
    compute_ai_lead_score ⟨false, none, some 0, none, none⟩ =
      (40, ["No website found", "Low review count: 0"]) := by
  simp [compute_ai_lead_score, scoreRaw, f_has_websiteOf, ratingOf, f_ratingOf,
    review_countOf, f_review_countOf, f_sentOf, f_missing_metaOf, pyOrRating, pyRound,
    w_missing_website, w_rating, w_review_count, w_sentiment, w_missing_meta]
  norm_num [Int.fract]
  decide

/-- Claim C5, counterexample: on the bundle with a website, rating 5.0,
500 reviews, sentiment 0.9 and a meta description, the score is not 0: the
sentiment sub-signal is 1 - (0.9+1)/2 = 0.05, so the raw score is
0.25 x 0.05 = 0.0125 and round(1.25) = 1. -/
theorem strong_bundle_score_ne_zero :
    (compute_ai_lead_score ⟨true, some 5, some 500, some (9/10), some true⟩).1 ≠ 0 := by
  simp [compute_ai_lead_score, scoreRaw, f_has_websiteOf, ratingOf, f_ratingOf,
    review_countOf, f_review_countOf, f_sentOf, f_missing_metaOf, pyOrRating, pyRound,
    w_missing_website, w_rating, w_review_count, w_sentiment, w_missing_meta]
  norm_num [Int.fract]

/-- Claim C5, amended: that bundle scores 1 with an empty reasons list. -/
theorem strong_bundle_score_one :
    compute_ai_lead_score ⟨true, some 5, some 500, some (9/10), some true⟩ =
      (1, []) := by
  simp [compute_ai_lead_score, scoreRaw, f_has_websiteOf, ratingOf, f_ratingOf,
    review_countOf, f_review_countOf, f_sentOf, f_missing_metaOf, pyOrRating, pyRound,
    w_missing_website, w_rating, w_review_count, w_sentiment, w_missing_meta]
  norm_num [Int.fract]

/-- Claim C9: a rating of exactly 0 is conflated with an unknown rating by
the `or 5.0` default (0 is falsy in Python), so the scorer returns the same
score and reasons for both, the low-rating sub-signal is 0, and the low
rating reason (which would render as "Low rating: 5.0" after the default) is
never emitted. -/
theorem rating_zero_treated_as_unknown (b : FeatureBundle) :
    compute_ai_lead_score { b with rating := some 0 } =
      compute_ai_lead_score { b with rating := none } ∧
    f_ratingOf { b with rating := some 0 } = 0 ∧
    "Low rating: 5.0" ∉ (compute_ai_lead_score { b with rating := some 0 }).2 := by
  have hf : f_ratingOf { b with rating := some 0 } = 0 := by
    simp [f_ratingOf, ratingOf, pyOrRating]
  refine ⟨?_, hf, ?_⟩
  · simp [compute_ai_lead_score, scoreRaw, f_has_websiteOf, ratingOf, f_ratingOf,
      review_countOf, f_review_countOf, f_sentOf, f_missing_metaOf, pyOrRating]
  · intro hmem
    simp only [compute_ai_lead_score, hf] at hmem
    norm_num [List.mem_append] at hmem
    rcases hmem with h | h | h | h
    · exact absurd h.2 (by decide)
    · exact low_rating_str_ne_low_review _ h.2
    · exact absurd h.2 (by decide)
    · exact absurd h.2 (by decide)

/-- Claim C2, counterexample: decreasing the known rating from 1.0 to 0.0,
all other features fixed, strictly DECREASES the score: the falsy-default
`or 5.0` turns the rating 0.0 into 5.0, erasing the 0.20 x 0.8 = 0.16
contribution of rating 1.0. -/
theorem score_decreases_when_rating_drops_to_zero :
    (compute_ai_lead_score ⟨true, some 0, some 200, some 1, some true⟩).1 <
      (compute_ai_lead_score ⟨true, some 1, some 200, some 1, some true⟩).1 := by
  simp [compute_ai_lead_score, scoreRaw, f_has_websiteOf, ratingOf, f_ratingOf,
    review_countOf, f_review_countOf, f_sentOf, f_missing_metaOf, pyOrRating, pyRound,
    w_missing_website, w_rating, w_review_count, w_sentiment, w_missing_meta]
  norm_num [Int.fract]

/-- Claim C2, amended: holding all other features fixed, (i) decreasing the
known rating within the strictly positive range never decreases the score
(a decrease to exactly 0 can decrease it, since 0 is conflated with the
unknown default 5.0); (ii) decreasing the review count (at most 200) never
decreases the score; (iii) decreasing the known average sentiment never
decreases the score. -/
theorem score_antitone_in_signals :
    (∀ (hw : Bool) (rc : Option ℤ) (sent : Option ℚ) (meta : Option Bool) (r₁ r₂ : ℚ),
        0 < r₂ → r₂ ≤ r₁ →
        (compute_ai_lead_score ⟨hw, some r₁, rc, sent, meta⟩).1 ≤
          (compute_ai_lead_score ⟨hw, some r₂, rc, sent, meta⟩).1) ∧
    (∀ (hw : Bool) (r : Option ℚ) (sent : Option ℚ) (meta : Option Bool) (n₁ n₂ : ℤ),
        n₂ ≤ n₁ → n₁ ≤ 200 →
        (compute_ai_lead_score ⟨hw, r, some n₁, sent, meta⟩).1 ≤
          (compute_ai_lead_score ⟨hw, r, some n₂, sent, meta⟩).1) ∧
    (∀ (hw : Bool) (r : Option ℚ) (rc : Option ℤ) (meta : Option Bool) (s₁ s₂ : ℚ),
        s₂ ≤ s₁ →
        (compute_ai_lead_score ⟨hw, r, rc, some s₁, meta⟩).1 ≤
          (compute_ai_lead_score ⟨hw, r, rc, some s₂, meta⟩).1) := by
  refine ⟨?_, ?_, ?_⟩
  · intro hw rc sent meta r₁ r₂ h2 h21
    apply score_le_score_of_scoreRaw_le
    have e2 : r₂ ≠ 0 := ne_of_gt h2
    have e1 : r₁ ≠ 0 := ne_of_gt (lt_of_lt_of_le h2 h21)
    simp [scoreRaw, f_has_websiteOf, ratingOf, f_ratingOf, review_countOf,
      f_review_countOf, f_sentOf, f_missing_metaOf, pyOrRating, e1, e2,
      w_missing_website, w_rating, w_review_count, w_sentiment, w_missing_meta]
    linarith
  · intro hw r sent meta n₁ n₂ h21 h200
    apply score_le_score_of_scoreRaw_le
    have hmin : min n₂ 200 ≤ min n₁ 200 := by omega
    have hminq : ((n₂ : ℚ) ⊓ 200) ≤ ((n₁ : ℚ) ⊓ 200) := by exact_mod_cast hmin
    simp [scoreRaw, f_has_websiteOf, ratingOf, f_ratingOf, review_countOf,
      f_review_countOf, f_sentOf, f_missing_metaOf,
      w_missing_website, w_rating, w_review_count, w_sentiment, w_missing_meta]
    linarith
  · intro hw r rc meta s₁ s₂ h21
    apply score_le_score_of_scoreRaw_le
    simp [scoreRaw, f_has_websiteOf, ratingOf, f_ratingOf, review_countOf,
      f_review_countOf, f_sentOf, f_missing_metaOf,
      w_missing_website, w_rating, w_review_count, w_sentiment, w_missing_meta]
    linarith

/-- Concrete instantiation of the amended monotonicity theorem: rating
5 -> 1, review count 100 -> 50, sentiment 1 -> 0. -/
theorem score_antitone_in_signals_check :
    ((compute_ai_lead_score ⟨true, some 5, some 200, some 1, some true⟩).1 ≤
      (compute_ai_lead_score ⟨true, some 1, some 200, some 1, some true⟩).1) ∧
    ((compute_ai_lead_score ⟨true, some 5, some 100, some 1, some true⟩).1 ≤
      (compute_ai_lead_score ⟨true, some 5, some 50, some 1, some true⟩).1) ∧
    ((compute_ai_lead_score ⟨true, some 5, some 200, some 1, some true⟩).1 ≤
      (compute_ai_lead_score ⟨true, some 5, some 200, some 0, some true⟩).1) :=
  ⟨score_antitone_in_signals.1 true (some 200) (some 1) (some true) 5 1
      (by norm_num) (by norm_num),
   score_antitone_in_signals.2.1 true (some 5) (some 1) (some true) 100 50
      (by norm_num) (by norm_num),
   score_antitone_in_signals.2.2 true (some 5) (some 200) (some true) 1 0
      (by norm_num)⟩

/-! ### Bounds on the sub-signals, used to show clamping is inactive -/

theorem f_has_website_bounds (b : FeatureBundle) :
    0 ≤ f_has_websiteOf b ∧ f_has_websiteOf b ≤ 1 := by
  unfold f_has_websiteOf; split <;> norm_num

theorem pyOrRating_pos_of_valid {r : Option ℚ} (h : ValidRating r) :
    0 < pyOrRating r ∧ pyOrRating r ≤ 5 := by
  cases r with
  | none => simp [pyOrRating]
  | some x =>
    obtain ⟨h0, h5⟩ := h
    rcases eq_or_ne x 0 with hx | hx
    · simp [pyOrRating, hx]
    · simp only [pyOrRating, hx, if_false]
      exact ⟨lt_of_le_of_ne h0 (Ne.symm hx), h5⟩

theorem f_rating_bounds {b : FeatureBundle} (h : ValidRating b.rating) :
    0 ≤ f_ratingOf b ∧ f_ratingOf b ≤ 1 := by
  obtain ⟨h0, h5⟩ := pyOrRating_pos_of_valid h
  unfold f_ratingOf ratingOf
  constructor <;> linarith

theorem f_review_count_bounds {b : FeatureBundle} (h : ValidReviewCount b.review_count) :
    0 ≤ f_review_countOf b ∧ f_review_countOf b ≤ 1 := by
  unfold f_review_countOf review_countOf
  rcases hb : b.review_count with _ | n
  · norm_num
  · rw [hb] at h
    have hn : (0 : ℤ) ≤ n := h
    have h0 : (0 : ℤ) ≤ min n 200 := by omega
    have h200 : min n 200 ≤ 200 := by omega
    have h0q : (0 : ℚ) ≤ ((min n 200 : ℤ) : ℚ) := by exact_mod_cast h0
    have h200q : ((min n 200 : ℤ) : ℚ) ≤ 200 := by exact_mod_cast h200
    simp only [Option.getD]
    constructor <;> linarith

theorem f_missing_meta_bounds (b : FeatureBundle) :
    0 ≤ f_missing_metaOf b ∧ f_missing_metaOf b ≤ 1 := by
  unfold f_missing_metaOf; split <;> norm_num

theorem scoreRaw_bounds_of_unknown_sentiment {b : FeatureBundle}
    (hr : ValidRating b.rating) (hc : ValidReviewCount b.review_count)
    (hs : b.avg_review_sentiment = none) :
    0 ≤ scoreRaw b ∧ scoreRaw b ≤ 3/4 := by
  obtain ⟨hw0, hw1⟩ := f_has_website_bounds b
  obtain ⟨hr0, hr1⟩ := f_rating_bounds hr
  obtain ⟨hc0, hc1⟩ := f_review_count_bounds hc
  obtain ⟨hm0, hm1⟩ := f_missing_meta_bounds b
  have hsent : f_sentOf b = 0 := by simp [f_sentOf, hs]
  unfold scoreRaw w_missing_website w_rating w_review_count w_sentiment w_missing_meta
  rw [hsent]
  constructor <;> linarith

/-- Claim C6: aggregating an empty review list yields the explicit unknown
marker; an unknown sentiment makes the negative-sentiment sub-signal exactly
0 while an explicit 0.0 compound makes it exactly 1/2; consequently, on any
bundle with in-range rating and review count, the score with unknown
sentiment is strictly below the score of the same bundle with sentiment 0.0
(the clamp cannot mask the 0.25 x 0.5 = 12.5 point gap). -/
theorem unknown_sentiment_distinct_from_neutral :
    (∀ polarity : String → ℚ, avgSentiment polarity [] = none) ∧
    (∀ b : FeatureBundle, b.avg_review_sentiment = none → f_sentOf b = 0) ∧
    (∀ b : FeatureBundle, b.avg_review_sentiment = some 0 → f_sentOf b = 1/2) ∧
    (∀ (hw : Bool) (r : Option ℚ) (rc : Option ℤ) (meta : Option Bool),
        ValidRating r → ValidReviewCount rc →
        (compute_ai_lead_score ⟨hw, r, rc, none, meta⟩).1 <
          (compute_ai_lead_score ⟨hw, r, rc, some 0, meta⟩).1) := by
  refine ⟨fun _ => rfl, ?_, ?_, ?_⟩
  · intro b hb; simp [f_sentOf, hb]
  · intro b hb; simp [f_sentOf, hb]; norm_num
  · intro hw r rc meta hr hrc
    obtain ⟨hraw0, hraw75⟩ :=
      scoreRaw_bounds_of_unknown_sentiment (b := ⟨hw, r, rc, none, meta⟩) hr hrc rfl
    have hdiff : scoreRaw ⟨hw, r, rc, some 0, meta⟩ =
        scoreRaw ⟨hw, r, rc, none, meta⟩ + 1/8 := by
      simp [scoreRaw, f_sentOf, f_has_websiteOf, ratingOf, f_ratingOf, review_countOf,
        f_review_countOf, f_missing_metaOf, w_sentiment, w_missing_website, w_rating,
        w_review_count, w_missing_meta]
      ring
    have ha := pyRound_le (scoreRaw ⟨hw, r, rc, none, meta⟩ * 100)
    have ha2 := le_pyRound (scoreRaw ⟨hw, r, rc, none, meta⟩ * 100)
    have hb := le_pyRound (scoreRaw ⟨hw, r, rc, some 0, meta⟩ * 100)
    have hb2 := pyRound_le (scoreRaw ⟨hw, r, rc, some 0, meta⟩ * 100)
    rw [hdiff] at hb hb2
    have hkeyq : (pyRound (scoreRaw ⟨hw, r, rc, none, meta⟩ * 100) : ℚ) <
        (pyRound (scoreRaw ⟨hw, r, rc, some 0, meta⟩ * 100) : ℚ) := by
      rw [hdiff]; linarith
    have hkey : pyRound (scoreRaw ⟨hw, r, rc, none, meta⟩ * 100) <
        pyRound (scoreRaw ⟨hw, r, rc, some 0, meta⟩ * 100) := by exact_mod_cast hkeyq
    have h10q : (-1 : ℚ) < (pyRound (scoreRaw ⟨hw, r, rc, none, meta⟩ * 100) : ℚ) := by
      linarith
    have h10 : (-1 : ℤ) < pyRound (scoreRaw ⟨hw, r, rc, none, meta⟩ * 100) := by
      exact_mod_cast h10q
    have h1100q : (pyRound (scoreRaw ⟨hw, r, rc, none, meta⟩ * 100) : ℚ) < 100 := by
      linarith
    have h1100 : pyRound (scoreRaw ⟨hw, r, rc, none, meta⟩ * 100) < 100 := by
      exact_mod_cast h1100q
    have h2100q : (pyRound (scoreRaw ⟨hw, r, rc, some 0, meta⟩ * 100) : ℚ) < 100 := by
      rw [hdiff]; linarith
    have h2100 : pyRound (scoreRaw ⟨hw, r, rc, some 0, meta⟩ * 100) < 100 := by
      exact_mod_cast h2100q
    show max 0 (min 100 (pyRound (scoreRaw ⟨hw, r, rc, none, meta⟩ * 100))) <
      max 0 (min 100 (pyRound (scoreRaw ⟨hw, r, rc, some 0, meta⟩ * 100)))
    omega

/-- Concrete instantiation of the unknown-vs-neutral sentiment theorem at a
bundle with website, rating 5, 200 reviews and a meta description. -/
theorem unknown_sentiment_distinct_check :
    (compute_ai_lead_score ⟨true, some 5, some 200, none, some true⟩).1 <
      (compute_ai_lead_score ⟨true, some 5, some 200, some 0, some true⟩).1 :=
  unknown_sentiment_distinct_from_neutral.2.2.2 true (some 5) (some 200) (some true)
    (by norm_num [ValidRating]) (by norm_num [ValidReviewCount])

/-! ### Run-level properties -/

theorem length_insertDesc (r : Row) (l : List Row) :
    (insertDesc r l).length = l.length + 1 := by
  induction l with
  | nil => rfl
  | cons x xs ih =>
    simp only [insertDesc]
    split
    · simp
    · simp [ih]

theorem length_sortByScoreDesc (l : List Row) :
    (sortByScoreDesc l).length = l.length := by
  induction l with
  | nil => rfl
  | cons x xs ih =>
    simp only [sortByScoreDesc, List.foldr_cons] at ih ⊢
    rw [length_insertDesc, ih]
    rfl

/-- Claim C3, counterexample: with a search collaborator that serves one
successful page (one candidate, with a continuation token) and fails on the
second page, the run returns the error: the accumulated candidate is NOT
scored and returned, because `scout_leads` has no try/except around the
paged search. -/
theorem search_failure_aborts_run :
    scout_leads searchFailsOnSecondPage detailsAlwaysFails webFetchNothing
      parseHtmlTrivial polarityZero "key" "gym" "Denver" 50 = .error .network := rfl

/-- Claim C3, amended: when the paged search fails, the failure propagates
out of the run unchanged; no accumulated lead is scored or returned. -/
theorem scout_leads_error_of_search_error
    (h : List (String × String) → Except Err PlacesData)
    (detailsFetch : Option String → Except Err Details)
    (webFetch : String → Option String) (parseHtml : String → HtmlSignals)
    (polarity : String → ℚ) (apiKey category location : String) (target_n : ℕ)
    (e : Err)
    (hfail : fetchLoop h apiKey category location target_n target_n [] none = .error e) :
    scout_leads h detailsFetch webFetch parseHtml polarity apiKey category location
      target_n = .error e := by
  unfold scout_leads
  rw [hfail]

/-- Concrete instantiation of the error-propagation theorem: one page
succeeds, the next fails, the run returns the error. -/
theorem scout_leads_error_of_search_error_check :
    scout_leads searchFailsOnSecondPage detailsAlwaysFails webFetchNothing
      parseHtmlTrivial polarityZero "key" "gym" "Denver" 10 = .error .network :=
  scout_leads_error_of_search_error searchFailsOnSecondPage detailsAlwaysFails
    webFetchNothing parseHtmlTrivial polarityZero "key" "gym" "Denver" 10 .network rfl

/-- Claim C7, counterexample: when the detail fetch fails for a candidate,
its features are NOT all unknown: `has_meta_desc` is the explicit value
`some false` (the skipped website check returns the all-false dict, and its
`has_meta_desc` field is stored in the bundle), and the rating keeps the
value from the search summary (`some 4` for this candidate) instead of
degrading to unknown. -/
theorem detail_failure_features_not_unknown :
    (featuresOfCandidate detailsAlwaysFails webFetchNothing parseHtmlTrivial
        polarityZero bizOne).has_meta_desc = some false ∧
    (featuresOfCandidate detailsAlwaysFails webFetchNothing parseHtmlTrivial
        polarityZero bizOne).rating = some 4 :=
  ⟨rfl, rfl⟩

/-- Claim C7, amended: a failed detail fetch still yields one row per
accumulated candidate, and the failed candidate reaches the scorer with
website treated as absent, sentiment unknown, meta-description EXPLICITLY
false (not unknown), and rating/review count taken from the search summary.
The row-count statement assumes a nonempty accumulation: on an empty one the
source raises a KeyError inside the pandas sort instead of returning a
table. -/
theorem detail_failure_degradation :
    (∀ (d : Option String → Except Err Details) (w : String → Option String)
        (p : String → HtmlSignals) (pol : String → ℚ) (biz : Candidate) (e : Err),
        d biz.place_id = .error e →
        featuresOfCandidate d w p pol biz =
          ⟨false, biz.rating, some (biz.user_ratings_total.getD 0), none, some false⟩) ∧
    (∀ (h : List (String × String) → Except Err PlacesData)
        (d : Option String → Except Err Details) (w : String → Option String)
        (p : String → HtmlSignals) (pol : String → ℚ)
        (apiKey category location : String) (target_n : ℕ) (lst : List Candidate),
        fetchLoop h apiKey category location target_n target_n [] none = .ok lst →
        lst ≠ [] →
        ∃ rows, scout_leads h d w p pol apiKey category location target_n = .ok rows ∧
          rows.length = lst.length) := by
  constructor
  · intro d w p pol biz e hfail
    unfold featuresOfCandidate fetchedDetails
    rw [hfail]
    unfold featuresOf emptyDetails
    simp [truthyStr, avgSentiment]
  · intro h d w p pol apiKey category location target_n lst hok _
    exact ⟨sortByScoreDesc (lst.map (processCandidate d w p pol)),
      by unfold scout_leads; rw [hok],
      by rw [length_sortByScoreDesc, List.length_map]⟩

/-- Concrete instantiation of the amended detail-failure theorem: two
candidates, every detail fetch failing; both degraded feature bundles and
both rows are still produced. -/
theorem detail_failure_degradation_check :
    featuresOfCandidate detailsAlwaysFails webFetchNothing parseHtmlTrivial
      polarityZero bizTwo = ⟨false, none, some 0, none, some false⟩ ∧
    ∃ rows, scout_leads searchOnePageOfTwo detailsAlwaysFails webFetchNothing
        parseHtmlTrivial polarityZero "key" "gym" "Denver" 2 = .ok rows ∧
      rows.length = 2 := by
  constructor
  · exact detail_failure_degradation.1 detailsAlwaysFails webFetchNothing
      parseHtmlTrivial polarityZero bizTwo .network rfl
  · obtain ⟨rows, hrows, hlen⟩ := detail_failure_degradation.2 searchOnePageOfTwo
      detailsAlwaysFails webFetchNothing parseHtmlTrivial polarityZero
      "key" "gym" "Denver" 2 [bizOne, bizTwo] rfl (by simp)
    exact ⟨rows, hrows, by rw [hlen]; rfl⟩

/-- Claim C10: the accumulation loop appends whole pages, so a run can
return strictly more results than `target_count` (here 2 rows for a target
of 1), and the page-size limit computed by the orchestrator is never placed
in the search request parameters. -/
theorem overshoot_and_limit_ignored :
    (∃ n : ℕ, Except.map List.length
        (scout_leads searchOnePageOfTwo detailsAlwaysFails webFetchNothing
          parseHtmlTrivial polarityZero "key" "gym" "Denver" 1) = .ok n ∧ 1 < n) ∧
    (∀ (apiKey query location : String) (lim₁ lim₂ : ℕ) (t : Option String),
        placesSearchParams apiKey query location lim₁ t =
          placesSearchParams apiKey query location lim₂ t) := by
  constructor
  · refine ⟨2, ?_, by norm_num⟩
    have hfl : fetchLoop searchOnePageOfTwo "key" "gym" "Denver" 1 1 [] none =
        .ok [bizOne, bizTwo] := rfl
    unfold scout_leads
    rw [hfl]
    simp [Except.map, length_sortByScoreDesc]
  · intro apiKey query location lim₁ lim₂ t
    rfl
